import Mathlib

/-!
Shallow embedding of the Vulkan renderer in src/Vulkan_Renderer
(HelloTriangleApp.cpp and HelloTriangleApp.h).

Vulkan enumeration values are embedded either as inductive types or as the
numeric values from vulkan_core.h.  Functions whose observable behaviour is
the sequence of commands they record into a command buffer are embedded as
pure functions returning that command list; stateful members are embedded as
explicit state passing.  Line numbers in doc comments refer to
HelloTriangleApp.cpp.
-/

namespace VulkanRenderer

/-- MAX_FRAMES_IN_FLIGHT = 2, HelloTriangleApp.cpp line 16. -/
def MAX_FRAMES_IN_FLIGHT : Nat := 2

/-- VK_ACCESS_TRANSFER_READ_BIT from vulkan_core.h. -/
def VK_ACCESS_TRANSFER_READ_BIT : Nat := 0x00000800

/-- VK_ACCESS_TRANSFER_WRITE_BIT from vulkan_core.h. -/
def VK_ACCESS_TRANSFER_WRITE_BIT : Nat := 0x00001000

/-- VK_ACCESS_SHADER_READ_BIT from vulkan_core.h. -/
def VK_ACCESS_SHADER_READ_BIT : Nat := 0x00000020

/-- VK_PIPELINE_STAGE_TOP_OF_PIPE_BIT from vulkan_core.h. -/
def VK_PIPELINE_STAGE_TOP_OF_PIPE_BIT : Nat := 0x00000001

/-- VK_PIPELINE_STAGE_TRANSFER_BIT from vulkan_core.h. -/
def VK_PIPELINE_STAGE_TRANSFER_BIT : Nat := 0x00001000

/-- VK_PIPELINE_STAGE_FRAGMENT_SHADER_BIT from vulkan_core.h. -/
def VK_PIPELINE_STAGE_FRAGMENT_SHADER_BIT : Nat := 0x00000080

/-- VkFilter from vulkan_core.h: VK_FILTER_NEAREST = 0, VK_FILTER_LINEAR = 1. -/
inductive VkFilter where
  | nearest
  | linear
deriving DecidableEq, Repr

/-- The image layouts this renderer touches (subset of VkImageLayout). -/
inductive VkImageLayout where
  | undefined
  | transferDstOptimal
  | transferSrcOptimal
  | shaderReadOnlyOptimal
  | colorAttachmentOptimal
  | depthStencilAttachmentOptimal
  | presentSrcKHR
deriving DecidableEq, Repr

/-- The fields of VkImageMemoryBarrier the renderer sets that vary per
transition (lines 680-691 and 533-541): layouts, access masks and the
subresource range mip window. -/
structure VkImageMemoryBarrier where
  oldLayout : VkImageLayout
  newLayout : VkImageLayout
  srcAccessMask : Nat
  dstAccessMask : Nat
  baseMipLevel : Nat
  levelCount : Nat
deriving DecidableEq, Repr

/-- The fields of VkImageBlit the renderer sets (lines 556-568): the source
and destination mip levels and the blit extents (srcOffsets[1] and
dstOffsets[1]; int32_t in the source, hence Int). -/
structure VkImageBlit where
  srcMipLevel : Nat
  srcWidth : Int
  srcHeight : Int
  dstMipLevel : Nat
  dstWidth : Int
  dstHeight : Int
  filter : VkFilter
deriving DecidableEq, Repr

/-- A command recorded into a command buffer by the texture pipeline. -/
inductive Cmd where
  | pipelineBarrier (sourceStage destinationStage : Nat) (barrier : VkImageMemoryBarrier)
  | blitImage (blit : VkImageBlit)
  | copyBufferToImage (width height : Int)
deriving DecidableEq, Repr

/-- ImageBuffer::TransitionImageLayout, lines 670-723.  sourceStage and
destinationStage are initialised to 0 (lines 676-677) and the value-initialised
barrier struct has both access masks 0; they are overwritten only for the two
supported (oldLayout, newLayout) pairs (lines 696-709).  There is no else
branch: for any other pair the function still records one barrier (line 713)
with stage masks 0 and access masks 0.  The subresource range always covers
mips [0, m_mipLevels) (lines 688-689). -/
def TransitionImageLayout (m_mipLevels : Nat) (oldLayout newLayout : VkImageLayout) :
    List Cmd :=
  if oldLayout = VkImageLayout.undefined ∧ newLayout = VkImageLayout.transferDstOptimal then
    [Cmd.pipelineBarrier VK_PIPELINE_STAGE_TOP_OF_PIPE_BIT VK_PIPELINE_STAGE_TRANSFER_BIT
      { oldLayout := oldLayout, newLayout := newLayout,
        srcAccessMask := 0, dstAccessMask := VK_ACCESS_TRANSFER_WRITE_BIT,
        baseMipLevel := 0, levelCount := m_mipLevels }]
  else if oldLayout = VkImageLayout.transferDstOptimal ∧
      newLayout = VkImageLayout.shaderReadOnlyOptimal then
    [Cmd.pipelineBarrier VK_PIPELINE_STAGE_TRANSFER_BIT VK_PIPELINE_STAGE_FRAGMENT_SHADER_BIT
      { oldLayout := oldLayout, newLayout := newLayout,
        srcAccessMask := VK_ACCESS_TRANSFER_WRITE_BIT, dstAccessMask := VK_ACCESS_SHADER_READ_BIT,
        baseMipLevel := 0, levelCount := m_mipLevels }]
  else
    [Cmd.pipelineBarrier 0 0
      { oldLayout := oldLayout, newLayout := newLayout,
        srcAccessMask := 0, dstAccessMask := 0,
        baseMipLevel := 0, levelCount := m_mipLevels }]

/-- The two (oldLayout, newLayout) pairs the design supports (spec section 4.4
and the comment block at lines 693-695). -/
def SupportedTransitionPair (oldLayout newLayout : VkImageLayout) : Prop :=
  (oldLayout = VkImageLayout.undefined ∧ newLayout = VkImageLayout.transferDstOptimal) ∨
  (oldLayout = VkImageLayout.transferDstOptimal ∧
    newLayout = VkImageLayout.shaderReadOnlyOptimal)

instance (a b : VkImageLayout) : Decidable (SupportedTransitionPair a b) := by
  unfold SupportedTransitionPair; infer_instance

/-- Line 621: mipLevels = floor(log2(max(texWidth, texHeight))) + 1.  For a
positive integer argument, std::floor(std::log2 n) computed in double
precision equals Nat.log2 n exactly (the double log2 of an int below 2^31 is
more than 2^-31 away from the next integer, far above rounding error). -/
def mipLevelCount (texWidth texHeight : Nat) : Nat :=
  Nat.log2 (max texWidth texHeight) + 1

/-- The loop of Texture::GenerateMipmaps, lines 546-593, unrolled on the
remaining iteration count (the loop runs i from 1 while i < mipLevels).
mipWidth and mipHeight are the int32_t locals of lines 543-544; each
iteration records the TRANSFER_DST to TRANSFER_SRC barrier on level i-1
(lines 547-554), the blit into level i at half size with nearest filtering
(lines 556-575), the TRANSFER_SRC to SHADER_READ_ONLY barrier on level i-1
(lines 579-588), then halves each dimension that is still above 1
(lines 591-592). -/
def GenerateMipmapsLoop (mipWidth mipHeight : Int) (i : Nat) : Nat → List Cmd
  | 0 => []
  | fuel + 1 =>
    Cmd.pipelineBarrier VK_PIPELINE_STAGE_TRANSFER_BIT VK_PIPELINE_STAGE_TRANSFER_BIT
      { oldLayout := VkImageLayout.transferDstOptimal,
        newLayout := VkImageLayout.transferSrcOptimal,
        srcAccessMask := VK_ACCESS_TRANSFER_WRITE_BIT,
        dstAccessMask := VK_ACCESS_TRANSFER_READ_BIT,
        baseMipLevel := i - 1, levelCount := 1 }
    :: Cmd.blitImage
      { srcMipLevel := i - 1, srcWidth := mipWidth, srcHeight := mipHeight,
        dstMipLevel := i,
        dstWidth := if mipWidth > 1 then mipWidth / 2 else 1,
        dstHeight := if mipHeight > 1 then mipHeight / 2 else 1,
        filter := VkFilter.nearest }
    :: Cmd.pipelineBarrier VK_PIPELINE_STAGE_TRANSFER_BIT VK_PIPELINE_STAGE_FRAGMENT_SHADER_BIT
      { oldLayout := VkImageLayout.transferSrcOptimal,
        newLayout := VkImageLayout.shaderReadOnlyOptimal,
        srcAccessMask := VK_ACCESS_TRANSFER_READ_BIT,
        dstAccessMask := VK_ACCESS_SHADER_READ_BIT,
        baseMipLevel := i - 1, levelCount := 1 }
    :: GenerateMipmapsLoop (if mipWidth > 1 then mipWidth / 2 else mipWidth)
        (if mipHeight > 1 then mipHeight / 2 else mipHeight) (i + 1) fuel

/-- Texture::GenerateMipmaps, lines 527-607: the loop over levels 1..L-1
followed by the final barrier on level L-1 (never blitted from) taking it
from TRANSFER_DST to SHADER_READ_ONLY (lines 595-604). -/
def GenerateMipmaps (mipLevels : Nat) (texWidth texHeight : Int) : List Cmd :=
  GenerateMipmapsLoop texWidth texHeight 1 (mipLevels - 1) ++
  [Cmd.pipelineBarrier VK_PIPELINE_STAGE_TRANSFER_BIT VK_PIPELINE_STAGE_FRAGMENT_SHADER_BIT
    { oldLayout := VkImageLayout.transferDstOptimal,
      newLayout := VkImageLayout.shaderReadOnlyOptimal,
      srcAccessMask := VK_ACCESS_TRANSFER_WRITE_BIT,
      dstAccessMask := VK_ACCESS_SHADER_READ_BIT,
      baseMipLevel := mipLevels - 1, levelCount := 1 }]

/-- The blit commands of a recorded command list, in order. -/
def blitsOf (cmds : List Cmd) : List VkImageBlit :=
  cmds.filterMap fun c =>
    match c with
    | Cmd.blitImage b => some b
    | _ => none

/-- One halving step of the mip dimension recurrence stated by the spec:
d goes to max(1, d / 2). -/
def mipHalving (d : Int) : Int := max 1 (d / 2)

/-- The spec mip dimension chain: dimension of level j given level 0 size d. -/
def mipDim (j : Nat) (d : Int) : Int := Nat.iterate mipHalving j d

/-- Result of Texture::CreateTextureImage: the mip level count stored on the
image buffer (SetMipLevels, line 623) and the commands recorded on its
behalf. -/
structure TextureCreationResult where
  mipLevels : Nat
  cmds : List Cmd
deriving DecidableEq, Repr

/-- Texture::CreateTextureImage, lines 613-664.  Line 621 computes
mipLevels = floor(log2(max(texWidth, texHeight))) + 1 and line 623 stores it
on the image buffer unconditionally, before the hasMipLevels branch.  The
image is created with that many levels (line 648), transitioned whole-range
UNDEFINED to TRANSFER_DST (line 651), filled from the staging buffer
(line 654), then either GenerateMipmaps runs (line 657) or a single
whole-range TRANSFER_DST to SHADER_READ_ONLY transition is recorded
(line 659). -/
def CreateTextureImage (texWidth texHeight : Nat) (hasMipLevels : Bool) :
    TextureCreationResult :=
  let mipLevels := mipLevelCount texWidth texHeight
  { mipLevels := mipLevels,
    cmds :=
      TransitionImageLayout mipLevels VkImageLayout.undefined VkImageLayout.transferDstOptimal
      ++ [Cmd.copyBufferToImage (texWidth : Int) (texHeight : Int)]
      ++ if hasMipLevels then
          GenerateMipmaps mipLevels (texWidth : Int) (texHeight : Int)
        else
          TransitionImageLayout mipLevels VkImageLayout.transferDstOptimal
            VkImageLayout.shaderReadOnlyOptimal }

/-- The barriers of a command list whose layout edge is
TRANSFER_DST to SHADER_READ_ONLY, in order. -/
def dstToShaderReadBarriers (cmds : List Cmd) : List VkImageMemoryBarrier :=
  cmds.filterMap fun c =>
    match c with
    | Cmd.pipelineBarrier _ _ b =>
      if b.oldLayout = VkImageLayout.transferDstOptimal ∧
          b.newLayout = VkImageLayout.shaderReadOnlyOptimal then some b else none
    | _ => none

/-- One entry of VkPhysicalDeviceMemoryProperties.memoryTypes. -/
structure VkMemoryType where
  propertyFlags : Nat
deriving DecidableEq, Repr

/-- The loop of FindMemoryType, lines 823-826, with i the index of the head
of the remaining list. -/
def FindMemoryTypeLoop (memoryTypes : List VkMemoryType) (typeFilter flags i : Nat) :
    Option Nat :=
  match memoryTypes with
  | [] => none
  | t :: rest =>
    if typeFilter &&& (1 <<< i) ≠ 0 ∧ t.propertyFlags &&& flags = flags then some i
    else FindMemoryTypeLoop rest typeFilter flags (i + 1)

/-- FindMemoryType, lines 817-832: scan the memory types in enumeration order
and return the first index i such that bit i of the filter is set and the
property flags of type i contain all required flags; the assert(false) at
line 831 when the loop finds nothing is modelled as none (fatal). -/
def FindMemoryType (memoryTypes : List VkMemoryType) (typeFilter flags : Nat) : Option Nat :=
  FindMemoryTypeLoop memoryTypes typeFilter flags 0

/-- The property the loop condition at line 824 tests for index j. -/
def MemTypeMatch (memoryTypes : List VkMemoryType) (typeFilter flags j : Nat) : Prop :=
  Nat.testBit typeFilter j = true ∧
  (memoryTypes.getD j { propertyFlags := 0 }).propertyFlags &&& flags = flags

instance (mts : List VkMemoryType) (f fl j : Nat) : Decidable (MemTypeMatch mts f fl j) := by
  unfold MemTypeMatch; infer_instance

/-- VK_FORMAT_B8G8R8A8_SRGB from vulkan_core.h. -/
def VK_FORMAT_B8G8R8A8_SRGB : Nat := 50

/-- VK_COLOR_SPACE_SRGB_NONLINEAR_KHR from vulkan_core.h. -/
def VK_COLOR_SPACE_SRGB_NONLINEAR_KHR : Nat := 0

/-- VkSurfaceFormatKHR: a format / colour-space pair. -/
structure VkSurfaceFormatKHR where
  format : Nat
  colorSpace : Nat
deriving DecidableEq, Repr

/-- HelloTriangleApplication::ChooseSwapSurfaceFormat, lines 1298-1308: the
loop returns the first entry matching the preferred format and colour space;
otherwise available_formats[0] is returned (indexing an empty vector is
undefined in C++, modelled by headD with a dummy default). -/
def ChooseSwapSurfaceFormat (available_formats : List VkSurfaceFormatKHR) :
    VkSurfaceFormatKHR :=
  match available_formats.find? (fun f =>
      f.format == VK_FORMAT_B8G8R8A8_SRGB &&
      f.colorSpace == VK_COLOR_SPACE_SRGB_NONLINEAR_KHR) with
  | some f => f
  | none => available_formats.headD { format := 0, colorSpace := 0 }

/-- VkPresentModeKHR values the renderer mentions. -/
inductive VkPresentModeKHR where
  | immediate
  | mailbox
  | fifo
  | fifoRelaxed
deriving DecidableEq, Repr

/-- HelloTriangleApplication::ChooseSwapPresentMode, lines 1314-1323: return
MAILBOX when the list contains it (the loop returns the matching element,
which equals MAILBOX), else FIFO. -/
def ChooseSwapPresentMode (available_present_modes : List VkPresentModeKHR) :
    VkPresentModeKHR :=
  if available_present_modes.contains VkPresentModeKHR.mailbox then VkPresentModeKHR.mailbox
  else VkPresentModeKHR.fifo

/-- VkExtent2D: width and height in pixels (uint32_t). -/
structure VkExtent2D where
  width : Nat
  height : Nat
deriving DecidableEq, Repr

/-- The fields of VkSurfaceCapabilitiesKHR the renderer reads. -/
structure VkSurfaceCapabilitiesKHR where
  minImageCount : Nat
  currentExtent : VkExtent2D
  minImageExtent : VkExtent2D
  maxImageExtent : VkExtent2D
deriving DecidableEq, Repr

/-- UINT32_MAX, the sentinel the surface reports in currentExtent.width when
the extent is not fixed. -/
def UINT32_MAX : Nat := 4294967295

/-- std::clamp(v, lo, hi): v if it lies in [lo, hi], else the nearer bound. -/
def stdClamp (v lo hi : Nat) : Nat :=
  if v < lo then lo else if hi < v then hi else v

/-- HelloTriangleApplication::ChooseSwapExtent, lines 1329-1348: when the
surface reports a fixed extent (currentExtent.width is not the UINT32_MAX
sentinel) it is returned as is; otherwise the framebuffer size queried from
the window is clamped componentwise into
[minImageExtent, maxImageExtent]. -/
def ChooseSwapExtent (capabilities : VkSurfaceCapabilitiesKHR) (fbWidth fbHeight : Nat) :
    VkExtent2D :=
  if capabilities.currentExtent.width ≠ UINT32_MAX then
    capabilities.currentExtent
  else
    { width := stdClamp fbWidth capabilities.minImageExtent.width
        capabilities.maxImageExtent.width,
      height := stdClamp fbHeight capabilities.minImageExtent.height
        capabilities.maxImageExtent.height }

/-- The busy-wait loop at lines 404-408 of RecreateSwapChain: poll the
framebuffer size until both dimensions are nonzero.  Modelled over the list
of sizes successive polls observe; none means the loop never exits. -/
def waitForNonZeroFramebuffer : List (Nat × Nat) → Option (Nat × Nat)
  | [] => none
  | (w, h) :: rest =>
    if w = 0 ∨ h = 0 then waitForNonZeroFramebuffer rest else some (w, h)

/-- SwapChainSupportDetails (HelloTriangleApp.h): what
QuerySwapChainSupport returns. -/
structure SwapChainSupportDetails where
  capabilities : VkSurfaceCapabilitiesKHR
  formats : List VkSurfaceFormatKHR
  present_modes : List VkPresentModeKHR
deriving DecidableEq, Repr

/-- The fields of VkSwapchainCreateInfoKHR that this verification tracks. -/
structure VkSwapchainCreateInfoKHR where
  minImageCount : Nat
  imageFormat : Nat
  imageColorSpace : Nat
  imageExtent : VkExtent2D
  presentMode : VkPresentModeKHR
  oldSwapchain : Option Nat
deriving DecidableEq, Repr

/-- The createInfo built by CreateSwapChain, lines 354-384.  Line 363 assigns
m_oldSwapChain to createInfo.oldSwapchain; line 384 then assigns
VK_NULL_HANDLE to the same field, and that is the value in force when
vkCreateSwapchainKHR runs at line 386. -/
def buildSwapchainCreateInfo (support : SwapChainSupportDetails) (fbWidth fbHeight : Nat)
    (m_oldSwapChain : Option Nat) : VkSwapchainCreateInfoKHR :=
  let surfaceFormat := ChooseSwapSurfaceFormat support.formats
  let presentMode := ChooseSwapPresentMode support.present_modes
  let extent := ChooseSwapExtent support.capabilities fbWidth fbHeight
  let createInfo : VkSwapchainCreateInfoKHR :=
    { minImageCount := support.capabilities.minImageCount + 1,
      imageFormat := surfaceFormat.format,
      imageColorSpace := surfaceFormat.colorSpace,
      imageExtent := extent,
      presentMode := presentMode,
      oldSwapchain := m_oldSwapChain }
  { createInfo with oldSwapchain := none }

/-- The observable operations RecreateSwapChain and its callees perform, in
program order.  Swapchain handles are Option Nat, none standing for
VK_NULL_HANDLE. -/
inductive SwapchainEvent where
  | deviceWaitIdle
  | destroyFramebuffers
  | destroyPipeline
  | destroyPipelineLayout
  | destroyRenderPass
  | destroySwapchain (handle : Option Nat)
  | createSwapchain (handle : Nat) (info : VkSwapchainCreateInfoKHR)
  | createRenderPass
  | createGraphicsPipeline
  | createRenderTargets
  | createDepthResources
  | createFrameBuffers
deriving DecidableEq, Repr

/-- The application members RecreateSwapChain touches.  nextHandle is a
fresh-name supply modelling vkCreateSwapchainKHR returning a handle distinct
from every live one. -/
structure RendererSwapchainState where
  m_swapChain : Option Nat
  m_oldSwapChain : Option Nat
  m_swapChainImageFormat : Nat
  m_swapChainExtent : VkExtent2D
  nextHandle : Nat
deriving DecidableEq, Repr

/-- HelloTriangleApplication::CleanUpSwapChain, lines 2124-2136: destroy the
framebuffers, pipeline, pipeline layout, render pass, and then the swapchain
currently held in m_swapChain (line 2135). -/
def CleanUpSwapChain (s : RendererSwapchainState) : List SwapchainEvent :=
  [SwapchainEvent.destroyFramebuffers, SwapchainEvent.destroyPipeline,
    SwapchainEvent.destroyPipelineLayout, SwapchainEvent.destroyRenderPass,
    SwapchainEvent.destroySwapchain s.m_swapChain]

/-- HelloTriangleApplication::CreateSwapChain, lines 344-399: build the
createInfo, create the swapchain (one event), store format and extent. -/
def CreateSwapChain (support : SwapChainSupportDetails) (fbWidth fbHeight : Nat)
    (s : RendererSwapchainState) : RendererSwapchainState × List SwapchainEvent :=
  let createInfo := buildSwapchainCreateInfo support fbWidth fbHeight s.m_oldSwapChain
  let newHandle := s.nextHandle
  ({ s with
      m_swapChain := some newHandle,
      m_swapChainImageFormat := createInfo.imageFormat,
      m_swapChainExtent := createInfo.imageExtent,
      nextHandle := s.nextHandle + 1 },
    [SwapchainEvent.createSwapchain newHandle createInfo])

/-- HelloTriangleApplication::RecreateSwapChain, lines 402-425: busy-wait for
a nonzero framebuffer size (lines 404-408), wait for the device to go idle
(line 410), set m_oldSwapChain to the current swapchain (line 412), run
CleanUpSwapChain (line 414) which destroys that very swapchain, rebuild
(lines 417-422), and null the m_oldSwapChain member (line 424). -/
def RecreateSwapChain (support : SwapChainSupportDetails) (polls : List (Nat × Nat))
    (s : RendererSwapchainState) : Option (RendererSwapchainState × List SwapchainEvent) :=
  match waitForNonZeroFramebuffer polls with
  | none => none
  | some (fbWidth, fbHeight) =>
    let s1 := { s with m_oldSwapChain := s.m_swapChain }
    let cleanupEvents := CleanUpSwapChain s1
    let (s2, createEvents) := CreateSwapChain support fbWidth fbHeight s1
    let rebuildEvents := [SwapchainEvent.createRenderPass,
      SwapchainEvent.createGraphicsPipeline, SwapchainEvent.createRenderTargets,
      SwapchainEvent.createDepthResources, SwapchainEvent.createFrameBuffers]
    some ({ s2 with m_oldSwapChain := none },
      SwapchainEvent.deviceWaitIdle :: (cleanupEvents ++ createEvents ++ rebuildEvents))

/-- The createInfo of every createSwapchain event in a trace, in order. -/
def createdSwapchainInfos (events : List SwapchainEvent) : List VkSwapchainCreateInfoKHR :=
  events.filterMap fun e =>
    match e with
    | SwapchainEvent.createSwapchain _ info => some info
    | _ => none

/-- VkResult values DrawFrame distinguishes. -/
inductive VkResult where
  | success
  | suboptimalKHR
  | errorOutOfDateKHR
deriving DecidableEq, Repr

/-- The observable operations of one DrawFrame tick, in program order. -/
inductive FrameEvent where
  | waitForFences (slot : Nat)
  | acquireNextImage (slot : Nat)
  | recreateSwapChain
  | resetFences (slot : Nat)
  | updateUniformBuffers (slot : Nat)
  | resetCommandBuffer (slot : Nat)
  | recordCommandBuffer (slot : Nat)
  | queueSubmit (slot : Nat)
  | queuePresent (slot : Nat)
deriving DecidableEq, Repr

/-- HelloTriangleApplication::DrawFrame, lines 2030-2102, as a function of
the slot index m_currentFrame and the VkResult values the acquire
(line 2037) and present (line 2092) calls return.  Returns the new
m_currentFrame and the events of the tick.  When acquire returns
VK_ERROR_OUT_OF_DATE_KHR the tick recreates the swapchain and returns at
line 2042, before the fence reset at line 2044, so nothing else runs and the
frame counter does not advance. -/
def DrawFrame (m_currentFrame : Nat) (acquireResult presentResult : VkResult) :
    Nat × List FrameEvent :=
  let pre := [FrameEvent.waitForFences m_currentFrame,
    FrameEvent.acquireNextImage m_currentFrame]
  if acquireResult = VkResult.errorOutOfDateKHR then
    (m_currentFrame, pre ++ [FrameEvent.recreateSwapChain])
  else
    ((m_currentFrame + 1) % MAX_FRAMES_IN_FLIGHT,
      pre ++ [FrameEvent.resetFences m_currentFrame,
        FrameEvent.updateUniformBuffers m_currentFrame,
        FrameEvent.resetCommandBuffer m_currentFrame,
        FrameEvent.recordCommandBuffer m_currentFrame,
        FrameEvent.queueSubmit m_currentFrame,
        FrameEvent.queuePresent m_currentFrame] ++
      if presentResult = VkResult.errorOutOfDateKHR ∨
          presentResult = VkResult.suboptimalKHR then
        [FrameEvent.recreateSwapChain]
      else [])

/-- VK_FENCE_CREATE_SIGNALED_BIT from vulkan_core.h. -/
def VK_FENCE_CREATE_SIGNALED_BIT : Nat := 1

/-- The VkFenceCreateInfo field the renderer sets (line 1993). -/
structure VkFenceCreateInfo where
  flags : Nat
deriving DecidableEq, Repr

/-- A fence, tracked by whether it is currently signaled. -/
structure VkFence where
  signaled : Bool
deriving DecidableEq, Repr

/-- vkCreateFence semantics: the fence starts signaled exactly when
VK_FENCE_CREATE_SIGNALED_BIT (bit 0) is set in the create flags. -/
def vkCreateFence (info : VkFenceCreateInfo) : VkFence :=
  { signaled := Nat.testBit info.flags 0 }

/-- One frame slot of the synchronisation ring (the part C10 is about). -/
structure FrameSyncSlot where
  inFlightFence : VkFence
deriving DecidableEq, Repr

/-- HelloTriangleApplication::CreateSyncObjects, lines 1977-2001: the loop at
lines 1996-2000 creates, for each of the k slots, the semaphores and one
fence from a fenceInfo whose flags are VK_FENCE_CREATE_SIGNALED_BIT
(line 1993). -/
def CreateSyncObjects (k : Nat) : List FrameSyncSlot :=
  (List.range k).map fun _ =>
    { inFlightFence := vkCreateFence { flags := VK_FENCE_CREATE_SIGNALED_BIT } }

/-- Modelling vkWaitForFences with UINT64_MAX timeout on a fence no prior
submission references (the first tick of a slot, line 2033): the wait
returns immediately iff the fence was created signaled; otherwise nothing
will ever signal it and the wait blocks forever. -/
def firstWaitOnFenceReturns (f : VkFence) : Bool := f.signaled

/-!
Theorems.  One theorem per claim of the specification, with shared helper
lemmas first.  In GenerateMipmapsLoop every division site is guarded by
the dividend being above 1, where C++ int32_t truncating division and the
Int division used here agree.
-/

theorem mipDim_zero (w : Int) : mipDim 0 w = w := rfl

theorem mipDim_succ (k : Nat) (w : Int) : mipDim (k + 1) w = mipDim k (mipHalving w) :=
  Function.iterate_succ_apply mipHalving k w

theorem mipDim_succ_outer (k : Nat) (w : Int) :
    mipDim (k + 1) w = max 1 (mipDim k w / 2) :=
  Function.iterate_succ_apply' mipHalving k w

theorem one_le_mipHalving (w : Int) : 1 ≤ mipHalving w := le_max_left 1 _

theorem blit_dst_eq_mipHalving (w : Int) (hw : 1 ≤ w) :
    (if w > 1 then w / 2 else 1) = mipHalving w := by
  unfold mipHalving; split <;> omega

theorem loopvar_update_eq_mipHalving (w : Int) (hw : 1 ≤ w) :
    (if w > 1 then w / 2 else w) = mipHalving w := by
  unfold mipHalving; split <;> omega

theorem blitsOf_GenerateMipmapsLoop (fuel : Nat) :
    ∀ (i : Nat) (w h : Int), 1 ≤ w → 1 ≤ h →
      blitsOf (GenerateMipmapsLoop w h (i + 1) fuel) =
        (List.range fuel).map (fun k =>
          { srcMipLevel := i + k, srcWidth := mipDim k w, srcHeight := mipDim k h,
            dstMipLevel := i + k + 1, dstWidth := mipDim (k + 1) w,
            dstHeight := mipDim (k + 1) h, filter := VkFilter.nearest }) := by
  induction fuel with
  | zero => intro i w h _ _; simp [GenerateMipmapsLoop, blitsOf]
  | succ n ih =>
    intro i w h hw hh
    have hw2 : 1 ≤ mipHalving w := one_le_mipHalving w
    have hh2 : 1 ≤ mipHalving h := one_le_mipHalving h
    have step := ih (i + 1) (mipHalving w) (mipHalving h) hw2 hh2
    rw [List.range_succ_eq_map, List.map_cons, List.map_map]
    unfold GenerateMipmapsLoop
    rw [loopvar_update_eq_mipHalving w hw, loopvar_update_eq_mipHalving h hh]
    unfold blitsOf
    rw [List.filterMap_cons, List.filterMap_cons, List.filterMap_cons]
    simp only []
    unfold blitsOf at step
    rw [step]
    congr 1
    · rw [blit_dst_eq_mipHalving w hw, blit_dst_eq_mipHalving h hh]
      simp [mipDim_zero, mipDim_succ]
    · apply List.map_congr_left
      intro a _
      simp only [Function.comp, Nat.succ_eq_add_one, mipDim_succ, VkImageBlit.mk.injEq,
        and_true, true_and]
      omega

/-- C7: mip chain generation halves dimensions level by level with floor
division and a floor of 1, blitting each level i-1 into level i with
nearest-neighbour filtering: the blits recorded by GenerateMipmaps for an
image of initial size w x h with L levels are exactly, for k in [0, L-1),
a blit from level k (size mipDim k) into level k+1 (size mipDim (k+1)),
where mipDim (k+1) d = max 1 (mipDim k d / 2), always with
VK_FILTER_NEAREST. -/
theorem GenerateMipmaps_blits (mipLevels : Nat) (w h : Int) (hw : 1 ≤ w) (hh : 1 ≤ h) :
    blitsOf (GenerateMipmaps mipLevels w h) =
      (List.range (mipLevels - 1)).map (fun k =>
        { srcMipLevel := k, srcWidth := mipDim k w, srcHeight := mipDim k h,
          dstMipLevel := k + 1, dstWidth := mipDim (k + 1) w,
          dstHeight := mipDim (k + 1) h, filter := VkFilter.nearest }) ∧
    (∀ k, mipDim (k + 1) w = max 1 (mipDim k w / 2)) ∧
    (∀ k, mipDim (k + 1) h = max 1 (mipDim k h / 2)) := by
  refine ⟨?_, fun k => mipDim_succ_outer k w, fun k => mipDim_succ_outer k h⟩
  unfold GenerateMipmaps blitsOf
  rw [List.filterMap_append]
  have main := blitsOf_GenerateMipmapsLoop (mipLevels - 1) 0 w h hw hh
  unfold blitsOf at main
  simp only [Nat.zero_add] at main ⊢
  rw [main]
  simp

/-- Witness for C7 on a concrete 8 x 5 image with 4 mip levels. -/
theorem GenerateMipmaps_blits_witness :
    blitsOf (GenerateMipmaps 4 8 5) =
      (List.range 3).map (fun k =>
        { srcMipLevel := k, srcWidth := mipDim k 8, srcHeight := mipDim k 5,
          dstMipLevel := k + 1, dstWidth := mipDim (k + 1) 8,
          dstHeight := mipDim (k + 1) 5, filter := VkFilter.nearest }) ∧
    (∀ k, mipDim (k + 1) 8 = max 1 (mipDim k 8 / 2)) ∧
    (∀ k, mipDim (k + 1) 5 = max 1 (mipDim k 5 / 2)) :=
  GenerateMipmaps_blits 4 8 5 (by decide) (by decide)

/-- C6: for every image of width and height at least 1, the mip level
count L computed at line 621 satisfies 2^(L-1) ≤ max(w, h) < 2^L, which is
exactly L = floor(log2(max(w, h))) + 1, and a 512 x 512 texture yields
exactly 10 levels. -/
theorem mipLevelCount_characterisation (w h : Nat) (hw : 1 ≤ w) (hh : 1 ≤ h) :
    2 ^ (mipLevelCount w h - 1) ≤ max w h ∧ max w h < 2 ^ mipLevelCount w h ∧
    mipLevelCount 512 512 = 10 := by
  have hne : max w h ≠ 0 := by omega
  refine ⟨?_, ?_, ?_⟩
  · simpa [mipLevelCount] using Nat.log2_self_le hne
  · simpa [mipLevelCount] using @Nat.lt_log2_self (max w h)
  · simp [mipLevelCount, Nat.log2]

/-- Witness for C6 at a concrete 512 x 512 input. -/
theorem mipLevelCount_characterisation_witness :
    2 ^ (mipLevelCount 512 512 - 1) ≤ max 512 512 ∧
    max 512 512 < 2 ^ mipLevelCount 512 512 ∧ mipLevelCount 512 512 = 10 :=
  mipLevelCount_characterisation 512 512 (by decide) (by decide)

theorem filter_bit_test (n i : Nat) : (n &&& (1 <<< i) ≠ 0) ↔ Nat.testBit n i = true := by
  rw [Nat.shiftLeft_eq, one_mul, Nat.and_two_pow]
  cases hb : Nat.testBit n i <;> simp

theorem FindMemoryTypeLoop_some_spec (typeFilter flags : Nat) :
    ∀ (mts : List VkMemoryType) (i0 r : Nat),
      FindMemoryTypeLoop mts typeFilter flags i0 = some r →
      i0 ≤ r ∧ r - i0 < mts.length ∧
        (Nat.testBit typeFilter r = true ∧
          (mts.getD (r - i0) { propertyFlags := 0 }).propertyFlags &&& flags = flags) ∧
        ∀ j, i0 ≤ j → j < r →
          ¬ (Nat.testBit typeFilter j = true ∧
            (mts.getD (j - i0) { propertyFlags := 0 }).propertyFlags &&& flags = flags) := by
  intro mts
  induction mts with
  | nil => intro i0 r hr; simp [FindMemoryTypeLoop] at hr
  | cons t rest ih =>
    intro i0 r hr
    unfold FindMemoryTypeLoop at hr
    by_cases hc : typeFilter &&& (1 <<< i0) ≠ 0 ∧ t.propertyFlags &&& flags = flags
    · rw [if_pos hc] at hr
      have hri : r = i0 := by injection hr with h; omega
      subst hri
      refine ⟨le_refl r, by simp, ?_, ?_⟩
      · simpa using ⟨(filter_bit_test typeFilter r).1 hc.1, hc.2⟩
      · intro j hj1 hj2; omega
    · rw [if_neg hc] at hr
      obtain ⟨hle, hlen, hmatch, hnone⟩ := ih (i0 + 1) r hr
      obtain ⟨k, hk⟩ : ∃ k, r - i0 = k + 1 := ⟨r - i0 - 1, by omega⟩
      have hk2 : r - (i0 + 1) = k := by omega
      refine ⟨by omega, by simp; omega, ?_, ?_⟩
      · rw [hk, List.getD_cons_succ]
        rw [hk2] at hmatch
        exact hmatch
      · intro j hj1 hj2
        rcases Nat.eq_or_lt_of_le hj1 with hji | hji
        · subst hji
          simp only [Nat.sub_self, List.getD_cons_zero]
          intro habs
          exact hc ⟨(filter_bit_test typeFilter i0).2 habs.1, habs.2⟩
        · obtain ⟨k2, hk2a⟩ : ∃ k2, j - i0 = k2 + 1 := ⟨j - i0 - 1, by omega⟩
          have hk2b : j - (i0 + 1) = k2 := by omega
          rw [hk2a, List.getD_cons_succ]
          have := hnone j (by omega) hj2
          rw [hk2b] at this
          exact this

theorem FindMemoryTypeLoop_none_iff (typeFilter flags : Nat) :
    ∀ (mts : List VkMemoryType) (i0 : Nat),
      FindMemoryTypeLoop mts typeFilter flags i0 = none ↔
        ∀ k, k < mts.length →
          ¬ (Nat.testBit typeFilter (i0 + k) = true ∧
            (mts.getD k { propertyFlags := 0 }).propertyFlags &&& flags = flags) := by
  intro mts
  induction mts with
  | nil => intro i0; simp [FindMemoryTypeLoop]
  | cons t rest ih =>
    intro i0
    unfold FindMemoryTypeLoop
    by_cases hc : typeFilter &&& (1 <<< i0) ≠ 0 ∧ t.propertyFlags &&& flags = flags
    · rw [if_pos hc]
      simp only [reduceCtorEq, false_iff]
      intro hall
      exact hall 0 (by simp) (by
        simpa using ⟨(filter_bit_test typeFilter i0).1 hc.1, hc.2⟩)
    · rw [if_neg hc]
      rw [ih (i0 + 1)]
      constructor
      · intro hall k hk
        cases k with
        | zero =>
          simp only [Nat.add_zero, List.getD_cons_zero]
          intro habs
          exact hc ⟨(filter_bit_test typeFilter i0).2 habs.1, habs.2⟩
        | succ k2 =>
          rw [List.getD_cons_succ]
          have := hall k2 (by simpa using Nat.lt_of_succ_lt_succ hk)
          rw [show i0 + 1 + k2 = i0 + (k2 + 1) by omega] at this
          exact this
      · intro hall k hk
        have := hall (k + 1) (by simpa using Nat.succ_lt_succ hk)
        rw [List.getD_cons_succ] at this
        rw [show i0 + (k + 1) = i0 + 1 + k by omega] at this
        exact this

/-- C4: for every memory-type query, FindMemoryType returns the first index
i in enumeration order whose bit is set in the filter and whose property
flags contain the required mask, and returns none (the fatal assert at line
831) exactly when no index satisfies both conditions, never falling back to
another type. -/
theorem FindMemoryType_first_match_or_fatal (memoryTypes : List VkMemoryType)
    (typeFilter flags : Nat) :
    (∀ i, FindMemoryType memoryTypes typeFilter flags = some i →
      i < memoryTypes.length ∧ MemTypeMatch memoryTypes typeFilter flags i ∧
        ∀ j, j < i → ¬ MemTypeMatch memoryTypes typeFilter flags j) ∧
    (FindMemoryType memoryTypes typeFilter flags = none ↔
      ∀ j, j < memoryTypes.length → ¬ MemTypeMatch memoryTypes typeFilter flags j) := by
  constructor
  · intro i hi
    obtain ⟨_, hlen, hmatch, hnone⟩ :=
      FindMemoryTypeLoop_some_spec typeFilter flags memoryTypes 0 i hi
    rw [Nat.sub_zero] at hlen hmatch
    refine ⟨hlen, hmatch, ?_⟩
    intro j hj
    have := hnone j (Nat.zero_le j) hj
    rw [Nat.sub_zero] at this
    exact this
  · rw [show FindMemoryType memoryTypes typeFilter flags =
      FindMemoryTypeLoop memoryTypes typeFilter flags 0 from rfl]
    rw [FindMemoryTypeLoop_none_iff typeFilter flags memoryTypes 0]
    constructor
    · intro hall j hj
      have := hall j hj
      rw [Nat.zero_add] at this
      exact this
    · intro hall k hk
      have := hall k hk
      rw [Nat.zero_add]
      exact this

/-- Witness for C4: filter 0b10 with required mask 2 over memory types with
properties 1 and 6 selects index 1, the first (and only) match. -/
theorem FindMemoryType_first_match_or_fatal_witness :
    1 < ([{ propertyFlags := 1 }, { propertyFlags := 6 }] : List VkMemoryType).length ∧
    MemTypeMatch [{ propertyFlags := 1 }, { propertyFlags := 6 }] 2 2 1 ∧
    ∀ j, j < 1 → ¬ MemTypeMatch [{ propertyFlags := 1 }, { propertyFlags := 6 }] 2 2 j :=
  (FindMemoryType_first_match_or_fatal
    [{ propertyFlags := 1 }, { propertyFlags := 6 }] 2 2).1 1 (by decide)

/-- C2 counterexample: the pair (UNDEFINED, SHADER_READ_ONLY_OPTIMAL) is
not one of the two supported pairs, yet TransitionImageLayout still records
one barrier command, with both stage masks and both access masks zero,
instead of failing fast. -/
theorem TransitionImageLayout_unsupported_pair_records_barrier :
    ¬ SupportedTransitionPair VkImageLayout.undefined VkImageLayout.shaderReadOnlyOptimal ∧
    TransitionImageLayout 1 VkImageLayout.undefined VkImageLayout.shaderReadOnlyOptimal ≠ [] ∧
    TransitionImageLayout 1 VkImageLayout.undefined VkImageLayout.shaderReadOnlyOptimal =
      [Cmd.pipelineBarrier 0 0
        { oldLayout := VkImageLayout.undefined,
          newLayout := VkImageLayout.shaderReadOnlyOptimal,
          srcAccessMask := 0, dstAccessMask := 0, baseMipLevel := 0, levelCount := 1 }] :=
  ⟨by decide, by decide, by decide⟩

/-- C2 amended: for every (old, new) layout pair outside the two supported
ones, TransitionImageLayout does not fail fast; it silently records exactly
one barrier whose stage masks and access masks are all zero, over the whole
mip range. -/
theorem TransitionImageLayout_unsupported_silently_records
    (m_mipLevels : Nat) (oldLayout newLayout : VkImageLayout)
    (h : ¬ SupportedTransitionPair oldLayout newLayout) :
    TransitionImageLayout m_mipLevels oldLayout newLayout =
      [Cmd.pipelineBarrier 0 0
        { oldLayout := oldLayout, newLayout := newLayout,
          srcAccessMask := 0, dstAccessMask := 0,
          baseMipLevel := 0, levelCount := m_mipLevels }] := by
  unfold SupportedTransitionPair at h
  rw [not_or] at h
  obtain ⟨h1, h2⟩ := h
  unfold TransitionImageLayout
  rw [if_neg h1, if_neg h2]

/-- Witness for C2 at the concrete unsupported pair
(TRANSFER_SRC_OPTIMAL, TRANSFER_DST_OPTIMAL) with 3 mip levels. -/
theorem TransitionImageLayout_unsupported_silently_records_witness :
    TransitionImageLayout 3 VkImageLayout.transferSrcOptimal VkImageLayout.transferDstOptimal =
      [Cmd.pipelineBarrier 0 0
        { oldLayout := VkImageLayout.transferSrcOptimal,
          newLayout := VkImageLayout.transferDstOptimal,
          srcAccessMask := 0, dstAccessMask := 0,
          baseMipLevel := 0, levelCount := 3 }] :=
  TransitionImageLayout_unsupported_silently_records 3
    VkImageLayout.transferSrcOptimal VkImageLayout.transferDstOptimal (by decide)

/-- C3 counterexample: a 512 x 512 texture created with hasMipLevels =
false stores a mip level count of 10, not 1: line 621 computes the
log2-based count and line 623 stores it unconditionally, before the
hasMipLevels branch. -/
theorem CreateTextureImage_noMip_mipLevels_not_one :
    (CreateTextureImage 512 512 false).mipLevels = 10 ∧
    (CreateTextureImage 512 512 false).mipLevels ≠ 1 := by
  have h10 : mipLevelCount 512 512 = 10 := by simp [mipLevelCount, Nat.log2]
  constructor
  · simpa [CreateTextureImage] using h10
  · simp [CreateTextureImage, h10]

/-- C3 amended: for every texture created with hasMipLevels = false, the
stored mip level count is mipLevelCount w h = floor(log2(max(w, h))) + 1
(it is not forced to 1), and exactly one TRANSFER_DST to SHADER_READ_ONLY
transition is recorded, covering the whole subresource range [0, L). -/
theorem CreateTextureImage_noMip_single_transition (texWidth texHeight : Nat) :
    (CreateTextureImage texWidth texHeight false).mipLevels =
      mipLevelCount texWidth texHeight ∧
    dstToShaderReadBarriers (CreateTextureImage texWidth texHeight false).cmds =
      [{ oldLayout := VkImageLayout.transferDstOptimal,
         newLayout := VkImageLayout.shaderReadOnlyOptimal,
         srcAccessMask := VK_ACCESS_TRANSFER_WRITE_BIT,
         dstAccessMask := VK_ACCESS_SHADER_READ_BIT,
         baseMipLevel := 0, levelCount := mipLevelCount texWidth texHeight }] := by
  constructor
  · rfl
  · simp [CreateTextureImage, dstToShaderReadBarriers, TransitionImageLayout,
      List.filterMap_append]

/-- C5: when the swapchain-image acquire reports VK_ERROR_OUT_OF_DATE_KHR,
the DrawFrame tick recreates the swapchain and aborts: the tick consists
exactly of the fence wait, the acquire, and the recreation; the fence is
not reset, no command buffer is recorded or submitted, no present happens,
and the frame index does not advance, so zero draw calls are produced for
that frame index. -/
theorem DrawFrame_out_of_date_aborts (m_currentFrame : Nat) (presentResult : VkResult) :
    DrawFrame m_currentFrame VkResult.errorOutOfDateKHR presentResult =
      (m_currentFrame,
        [FrameEvent.waitForFences m_currentFrame,
          FrameEvent.acquireNextImage m_currentFrame,
          FrameEvent.recreateSwapChain]) ∧
    FrameEvent.resetFences m_currentFrame ∉
      (DrawFrame m_currentFrame VkResult.errorOutOfDateKHR presentResult).2 ∧
    FrameEvent.recordCommandBuffer m_currentFrame ∉
      (DrawFrame m_currentFrame VkResult.errorOutOfDateKHR presentResult).2 ∧
    FrameEvent.queueSubmit m_currentFrame ∉
      (DrawFrame m_currentFrame VkResult.errorOutOfDateKHR presentResult).2 ∧
    FrameEvent.queuePresent m_currentFrame ∉
      (DrawFrame m_currentFrame VkResult.errorOutOfDateKHR presentResult).2 := by
  refine ⟨rfl, ?_, ?_, ?_, ?_⟩ <;> simp [DrawFrame]

/-- C10: every per-frame in-flight fence is created in the signaled state
(the fence create flags at line 1993 are VK_FENCE_CREATE_SIGNALED_BIT), so
for each slot i of the k frame slots the first wait on that fence returns
immediately rather than blocking forever. -/
theorem CreateSyncObjects_fences_signaled (k i : Nat) (hik : i < k) :
    ((CreateSyncObjects k).getD i
      { inFlightFence := { signaled := false } }).inFlightFence.signaled = true ∧
    firstWaitOnFenceReturns ((CreateSyncObjects k).getD i
      { inFlightFence := { signaled := false } }).inFlightFence = true := by
  have hx : (CreateSyncObjects k).getD i { inFlightFence := { signaled := false } } =
      { inFlightFence := vkCreateFence { flags := VK_FENCE_CREATE_SIGNALED_BIT } } := by
    unfold CreateSyncObjects
    rw [List.getD_eq_getElem?_getD, List.getElem?_map, List.getElem?_range hik]
    rfl
  rw [hx]
  exact ⟨rfl, rfl⟩

/-- Witness for C10 at slot 0 of the two-slot ring. -/
theorem CreateSyncObjects_fences_signaled_witness :
    ((CreateSyncObjects 2).getD 0
      { inFlightFence := { signaled := false } }).inFlightFence.signaled = true ∧
    firstWaitOnFenceReturns ((CreateSyncObjects 2).getD 0
      { inFlightFence := { signaled := false } }).inFlightFence = true :=
  CreateSyncObjects_fences_signaled 2 0 (by decide)

theorem waitForNonZeroFramebuffer_pos :
    ∀ (polls : List (Nat × Nat)) (w h : Nat),
      waitForNonZeroFramebuffer polls = some (w, h) → 1 ≤ w ∧ 1 ≤ h := by
  intro polls
  induction polls with
  | nil => intro w h hwh; simp [waitForNonZeroFramebuffer] at hwh
  | cons p rest ih =>
    intro w h hwh
    obtain ⟨pw, ph⟩ := p
    unfold waitForNonZeroFramebuffer at hwh
    by_cases hz : pw = 0 ∨ ph = 0
    · rw [if_pos hz] at hwh
      exact ih w h hwh
    · rw [if_neg hz] at hwh
      rw [not_or] at hz
      injection hwh with h2
      rw [Prod.mk.injEq] at h2
      omega

theorem stdClamp_bounds (v lo hi : Nat) (h : lo ≤ hi) :
    lo ≤ stdClamp v lo hi ∧ stdClamp v lo hi ≤ hi := by
  unfold stdClamp; split_ifs <;> omega

theorem stdClamp_pos (v lo hi : Nat) (hv : 1 ≤ v) (hhi : 1 ≤ hi) :
    1 ≤ stdClamp v lo hi := by
  unfold stdClamp; split_ifs <;> omega

/-- C8: the swapchain extent is always inside the surface bounds: when the
surface leaves the extent free (the UINT32_MAX sentinel) the framebuffer
size is clamped componentwise into [minImageExtent, maxImageExtent],
otherwise the fixed current extent is used as is; and because recreation
first blocks until the window reports a nonzero framebuffer size, the
extent chosen during recreation has nonzero area (given the surface
guarantees that the bounds are ordered, the maximum extent is nonzero, and
a fixed current extent is nonzero). -/
theorem ChooseSwapExtent_bounds_and_recreate_nonzero
    (capabilities : VkSurfaceCapabilitiesKHR) (polls : List (Nat × Nat)) (w h : Nat)
    (hpoll : waitForNonZeroFramebuffer polls = some (w, h))
    (hW : capabilities.minImageExtent.width ≤ capabilities.maxImageExtent.width)
    (hH : capabilities.minImageExtent.height ≤ capabilities.maxImageExtent.height)
    (hmaxW : 1 ≤ capabilities.maxImageExtent.width)
    (hmaxH : 1 ≤ capabilities.maxImageExtent.height)
    (hfixed : capabilities.currentExtent.width ≠ UINT32_MAX →
      1 ≤ capabilities.currentExtent.width ∧ 1 ≤ capabilities.currentExtent.height) :
    (capabilities.currentExtent.width = UINT32_MAX →
      capabilities.minImageExtent.width ≤ (ChooseSwapExtent capabilities w h).width ∧
      (ChooseSwapExtent capabilities w h).width ≤ capabilities.maxImageExtent.width ∧
      capabilities.minImageExtent.height ≤ (ChooseSwapExtent capabilities w h).height ∧
      (ChooseSwapExtent capabilities w h).height ≤ capabilities.maxImageExtent.height) ∧
    (capabilities.currentExtent.width ≠ UINT32_MAX →
      ChooseSwapExtent capabilities w h = capabilities.currentExtent) ∧
    1 ≤ (ChooseSwapExtent capabilities w h).width ∧
    1 ≤ (ChooseSwapExtent capabilities w h).height := by
  obtain ⟨hw1, hh1⟩ := waitForNonZeroFramebuffer_pos polls w h hpoll
  by_cases hcur : capabilities.currentExtent.width = UINT32_MAX
  · have hch : ChooseSwapExtent capabilities w h =
        { width := stdClamp w capabilities.minImageExtent.width
            capabilities.maxImageExtent.width,
          height := stdClamp h capabilities.minImageExtent.height
            capabilities.maxImageExtent.height } := by
      unfold ChooseSwapExtent
      rw [if_neg (not_not_intro hcur)]
    rw [hch]
    refine ⟨fun _ => ⟨(stdClamp_bounds w _ _ hW).1, (stdClamp_bounds w _ _ hW).2,
        (stdClamp_bounds h _ _ hH).1, (stdClamp_bounds h _ _ hH).2⟩,
      fun hne => absurd hcur hne, ?_, ?_⟩
    · exact stdClamp_pos w _ _ hw1 hmaxW
    · exact stdClamp_pos h _ _ hh1 hmaxH
  · have hch : ChooseSwapExtent capabilities w h = capabilities.currentExtent := by
      unfold ChooseSwapExtent
      rw [if_pos hcur]
    rw [hch]
    obtain ⟨hcw, hchh⟩ := hfixed hcur
    exact ⟨fun he => absurd he hcur, fun _ => rfl, hcw, hchh⟩

/-- Concrete surface capabilities for the C8 witness: free extent
(sentinel), bounds [100, 2000] in each dimension. -/
def capsC8 : VkSurfaceCapabilitiesKHR :=
  { minImageCount := 2,
    currentExtent := { width := UINT32_MAX, height := 999 },
    minImageExtent := { width := 100, height := 100 },
    maxImageExtent := { width := 2000, height := 2000 } }

/-- Witness for C8: recreation polling sizes (0,0) then (800,600) picks
(800,600) and the chosen extent is clamped and nonzero. -/
theorem ChooseSwapExtent_bounds_and_recreate_nonzero_witness :
    (capsC8.currentExtent.width = UINT32_MAX →
      capsC8.minImageExtent.width ≤ (ChooseSwapExtent capsC8 800 600).width ∧
      (ChooseSwapExtent capsC8 800 600).width ≤ capsC8.maxImageExtent.width ∧
      capsC8.minImageExtent.height ≤ (ChooseSwapExtent capsC8 800 600).height ∧
      (ChooseSwapExtent capsC8 800 600).height ≤ capsC8.maxImageExtent.height) ∧
    (capsC8.currentExtent.width ≠ UINT32_MAX →
      ChooseSwapExtent capsC8 800 600 = capsC8.currentExtent) ∧
    1 ≤ (ChooseSwapExtent capsC8 800 600).width ∧
    1 ≤ (ChooseSwapExtent capsC8 800 600).height :=
  ChooseSwapExtent_bounds_and_recreate_nonzero capsC8 [(0, 0), (800, 600)] 800 600
    (by decide) (by decide) (by decide) (by decide) (by decide) (by decide)

/-- C1: the RecreateSwapChain trace destroys the old swapchain handle (the
destroySwapchain event at position 5, emitted by CleanUpSwapChain at line
414 on m_swapChain, which line 412 has just aliased into m_oldSwapChain)
strictly before the new swapchain is created (position 6, line 417), and
the creation passes VK_NULL_HANDLE in createInfo.oldSwapchain because line
384 overwrites the handle stored at line 363.  This contradicts the spec
(and the comments at lines 363 and 412): the old chain is destroyed before
the new one exists and is never passed into the creation. -/
theorem RecreateSwapChain_destroys_old_before_create
    (support : SwapChainSupportDetails) (polls : List (Nat × Nat))
    (s s2 : RendererSwapchainState) (events : List SwapchainEvent) (H : Nat)
    (hH : s.m_swapChain = some H)
    (hrec : RecreateSwapChain support polls s = some (s2, events)) :
    events[5]? = some (SwapchainEvent.destroySwapchain (some H)) ∧
    (∃ info, events[6]? = some (SwapchainEvent.createSwapchain s.nextHandle info) ∧
      info.oldSwapchain = none) ∧
    (∀ k, k < 6 → ∀ hNew info,
      events[k]? ≠ some (SwapchainEvent.createSwapchain hNew info)) := by
  unfold RecreateSwapChain at hrec
  rcases hpoll : waitForNonZeroFramebuffer polls with _ | ⟨fw, fh⟩
  · rw [hpoll] at hrec
    exact absurd hrec (by simp)
  · rw [hpoll] at hrec
    simp only [CleanUpSwapChain, CreateSwapChain, Option.some.injEq, Prod.mk.injEq] at hrec
    obtain ⟨hs2, hev⟩ := hrec
    subst hs2
    subst hev
    refine ⟨by simp [hH], ?_, ?_⟩
    · exact ⟨buildSwapchainCreateInfo support fw fh s.m_swapChain, by simp, rfl⟩
    · intro k hk hNew info
      interval_cases k <;> simp

/-- Concrete support details for the C1 witness: fixed current extent. -/
def supportC1 : SwapChainSupportDetails :=
  { capabilities :=
      { minImageCount := 2,
        currentExtent := { width := 640, height := 480 },
        minImageExtent := { width := 640, height := 480 },
        maxImageExtent := { width := 640, height := 480 } },
    formats := [{ format := 50, colorSpace := 0 }],
    present_modes := [VkPresentModeKHR.mailbox] }

/-- Concrete renderer state for the C1 witness: live swapchain handle 7. -/
def stateC1 : RendererSwapchainState :=
  { m_swapChain := some 7, m_oldSwapChain := none,
    m_swapChainImageFormat := 0, m_swapChainExtent := { width := 0, height := 0 },
    nextHandle := 10 }

/-- The createInfo the C1 witness run builds. -/
def infoC1 : VkSwapchainCreateInfoKHR :=
  { minImageCount := 3, imageFormat := 50, imageColorSpace := 0,
    imageExtent := { width := 640, height := 480 },
    presentMode := VkPresentModeKHR.mailbox, oldSwapchain := none }

/-- The state after the C1 witness run. -/
def stateC1After : RendererSwapchainState :=
  { m_swapChain := some 10, m_oldSwapChain := none,
    m_swapChainImageFormat := 50, m_swapChainExtent := { width := 640, height := 480 },
    nextHandle := 11 }

/-- The event trace of the C1 witness run. -/
def eventsC1 : List SwapchainEvent :=
  [SwapchainEvent.deviceWaitIdle, SwapchainEvent.destroyFramebuffers,
    SwapchainEvent.destroyPipeline, SwapchainEvent.destroyPipelineLayout,
    SwapchainEvent.destroyRenderPass, SwapchainEvent.destroySwapchain (some 7),
    SwapchainEvent.createSwapchain 10 infoC1, SwapchainEvent.createRenderPass,
    SwapchainEvent.createGraphicsPipeline, SwapchainEvent.createRenderTargets,
    SwapchainEvent.createDepthResources, SwapchainEvent.createFrameBuffers]

/-- Witness for C1: a concrete recreation run destroys handle 7 at position
5, creates the new chain only at position 6, and passes a null old
swapchain. -/
theorem RecreateSwapChain_destroys_old_before_create_witness :
    eventsC1[5]? = some (SwapchainEvent.destroySwapchain (some 7)) ∧
    (∃ info, eventsC1[6]? = some (SwapchainEvent.createSwapchain stateC1.nextHandle info) ∧
      info.oldSwapchain = none) ∧
    (∀ k, k < 6 → ∀ hNew info,
      eventsC1[k]? ≠ some (SwapchainEvent.createSwapchain hNew info)) :=
  RecreateSwapChain_destroys_old_before_create supportC1 [(640, 480)]
    stateC1 stateC1After eventsC1 7 (by decide) (by decide)

theorem buildSwapchainCreateInfo_oldSwapchain_irrelevant
    (support : SwapChainSupportDetails) (fbWidth fbHeight : Nat) (a b : Option Nat) :
    buildSwapchainCreateInfo support fbWidth fbHeight a =
      buildSwapchainCreateInfo support fbWidth fbHeight b := rfl

/-- C9: recreating the swapchain twice in succession with unchanged surface
support details and no intervening resize (the same polled framebuffer
sizes) yields a structurally equivalent swapchain: the second creation uses
a createInfo with the same image format, colour space, present mode and
extent as the first, and the stored format and extent members are
unchanged. -/
theorem RecreateSwapChain_idempotent
    (support : SwapChainSupportDetails) (polls : List (Nat × Nat))
    (s s1 s2 : RendererSwapchainState) (e1 e2 : List SwapchainEvent)
    (h1 : RecreateSwapChain support polls s = some (s1, e1))
    (h2 : RecreateSwapChain support polls s1 = some (s2, e2)) :
    (∃ info1 info2,
      createdSwapchainInfos e1 = [info1] ∧ createdSwapchainInfos e2 = [info2] ∧
      info2.imageFormat = info1.imageFormat ∧
      info2.imageColorSpace = info1.imageColorSpace ∧
      info2.presentMode = info1.presentMode ∧
      info2.imageExtent = info1.imageExtent) ∧
    s2.m_swapChainImageFormat = s1.m_swapChainImageFormat ∧
    s2.m_swapChainExtent = s1.m_swapChainExtent := by
  unfold RecreateSwapChain at h1 h2
  rcases hpoll : waitForNonZeroFramebuffer polls with _ | ⟨fw, fh⟩
  · rw [hpoll] at h1
    exact absurd h1 (by simp)
  · rw [hpoll] at h1 h2
    simp only [CleanUpSwapChain, CreateSwapChain, Option.some.injEq, Prod.mk.injEq] at h1 h2
    obtain ⟨hs1, he1⟩ := h1
    subst hs1
    subst he1
    obtain ⟨hs2, he2⟩ := h2
    subst hs2
    subst he2
    refine ⟨⟨buildSwapchainCreateInfo support fw fh s.m_swapChain,
      buildSwapchainCreateInfo support fw fh (some s.nextHandle), ?_, ?_, ?_, ?_, ?_, ?_⟩,
      ?_, ?_⟩ <;>
      simp [createdSwapchainInfos,
        buildSwapchainCreateInfo_oldSwapchain_irrelevant support fw fh
          (some s.nextHandle) s.m_swapChain]

/-- Concrete support details for the C9 witness. -/
def supportC9 : SwapChainSupportDetails :=
  { capabilities :=
      { minImageCount := 2,
        currentExtent := { width := 1024, height := 768 },
        minImageExtent := { width := 1024, height := 768 },
        maxImageExtent := { width := 1024, height := 768 } },
    formats := [{ format := 44, colorSpace := 3 }],
    present_modes := [VkPresentModeKHR.fifo] }

/-- Initial renderer state for the C9 witness. -/
def stateC9 : RendererSwapchainState :=
  { m_swapChain := some 1, m_oldSwapChain := none,
    m_swapChainImageFormat := 0, m_swapChainExtent := { width := 0, height := 0 },
    nextHandle := 2 }

/-- The createInfo both C9 witness runs build. -/
def infoC9 : VkSwapchainCreateInfoKHR :=
  { minImageCount := 3, imageFormat := 44, imageColorSpace := 3,
    imageExtent := { width := 1024, height := 768 },
    presentMode := VkPresentModeKHR.fifo, oldSwapchain := none }

/-- State after the first C9 witness run. -/
def stateC9One : RendererSwapchainState :=
  { m_swapChain := some 2, m_oldSwapChain := none,
    m_swapChainImageFormat := 44, m_swapChainExtent := { width := 1024, height := 768 },
    nextHandle := 3 }

/-- State after the second C9 witness run. -/
def stateC9Two : RendererSwapchainState :=
  { m_swapChain := some 3, m_oldSwapChain := none,
    m_swapChainImageFormat := 44, m_swapChainExtent := { width := 1024, height := 768 },
    nextHandle := 4 }

/-- Event trace of the first C9 witness run. -/
def eventsC9One : List SwapchainEvent :=
  [SwapchainEvent.deviceWaitIdle, SwapchainEvent.destroyFramebuffers,
    SwapchainEvent.destroyPipeline, SwapchainEvent.destroyPipelineLayout,
    SwapchainEvent.destroyRenderPass, SwapchainEvent.destroySwapchain (some 1),
    SwapchainEvent.createSwapchain 2 infoC9, SwapchainEvent.createRenderPass,
    SwapchainEvent.createGraphicsPipeline, SwapchainEvent.createRenderTargets,
    SwapchainEvent.createDepthResources, SwapchainEvent.createFrameBuffers]

/-- Event trace of the second C9 witness run. -/
def eventsC9Two : List SwapchainEvent :=
  [SwapchainEvent.deviceWaitIdle, SwapchainEvent.destroyFramebuffers,
    SwapchainEvent.destroyPipeline, SwapchainEvent.destroyPipelineLayout,
    SwapchainEvent.destroyRenderPass, SwapchainEvent.destroySwapchain (some 2),
    SwapchainEvent.createSwapchain 3 infoC9, SwapchainEvent.createRenderPass,
    SwapchainEvent.createGraphicsPipeline, SwapchainEvent.createRenderTargets,
    SwapchainEvent.createDepthResources, SwapchainEvent.createFrameBuffers]

/-- Witness for C9: two concrete back-to-back recreations with the same
support details produce createInfos agreeing on format, colour space,
present mode and extent, and unchanged stored format and extent. -/
theorem RecreateSwapChain_idempotent_witness :
    (∃ info1 info2,
      createdSwapchainInfos eventsC9One = [info1] ∧
      createdSwapchainInfos eventsC9Two = [info2] ∧
      info2.imageFormat = info1.imageFormat ∧
      info2.imageColorSpace = info1.imageColorSpace ∧
      info2.presentMode = info1.presentMode ∧
      info2.imageExtent = info1.imageExtent) ∧
    stateC9Two.m_swapChainImageFormat = stateC9One.m_swapChainImageFormat ∧
    stateC9Two.m_swapChainExtent = stateC9One.m_swapChainExtent :=
  RecreateSwapChain_idempotent supportC9 [(1024, 768)] stateC9 stateC9One stateC9Two
    eventsC9One eventsC9Two (by decide) (by decide)

end VulkanRenderer
